import Mathlib

/-!
Verification of the ellidri IRC server core (shared network state, channel
records, mode grammar) against its natural-language specification.

The definitions below are shallow embeddings of the Rust sources:

* `src/modes.rs`        — the mode-string grammar (`SimpleQuery`, `ChannelQuery`);
* `src/channel.rs`      — channel records and `Channel::apply_mode_change`;
* `src/state/mod.rs`    — `StateInner` (network state), `rehash`, `peer_quit`,
                          `remove_client`, `send_notification`, `handle_message`,
                          `points_of`, `find_nick`, `send_query_or_channel_msg`;
* `src/state/ircv3.rs`  — `cmd_cap_req`, `cmd_setname`.

Rust `HashMap`s are modelled as association lists, `HashSet`s as lists with
membership-guarded insertion, client identifiers (`usize` slab keys) as `Nat`,
and message sinks as returned delivery lists `(recipient, message)`.  Code of
the repository that is not part of the sources at hand (`client.rs`,
`rfc2812.rs`, the tokens crate internals, `lines.rs`, `config.rs`) is modelled
from the specification; every such definition is marked in its doc comment.
-/

namespace Ellidri

/-! ## Mode grammar (`src/modes.rs`) -/

/-- Error results of the mode grammar, from `modes::Error`. -/
inductive ModeError where
  | UnknownMode (c : Char)
  | MissingModeParam
  | BadModeParam
deriving DecidableEq, Repr

/-- Typed channel mode change records, from `modes::ChannelModeChange`.
`Cow<str>` parameters are modelled as `String`. -/
inductive ChannelModeChange where
  | Anonymous (value : Bool)
  | InviteOnly (value : Bool)
  | Moderated (value : Bool)
  | NoPrivMsgFromOutside (value : Bool)
  | Quiet (value : Bool)
  | Private (value : Bool)
  | Secret (value : Bool)
  | TopicRestricted (value : Bool)
  | Key (value : Bool) (key : String)
  | UserLimit (limit : Option String)
  | GetBans
  | GetExceptions
  | GetInvitations
  | ChangeBan (value : Bool) (param : String)
  | ChangeException (value : Bool) (param : String)
  | ChangeInvitation (value : Bool) (param : String)
  | ChangeOperator (value : Bool) (param : String)
  | ChangeVoice (value : Bool) (param : String)
deriving DecidableEq, Repr

/-- Per-letter decoding of a channel mode character, from the `match mode`
expression in `<ChannelQuery as Iterator>::next` (src/modes.rs:180-220).
Returns the decoded record (or error) together with the remaining parameters
(`self.params.next()` consumes one parameter). -/
def channelModeDecode (value : Bool) (c : Char) (ps : List String) :
    Except ModeError ChannelModeChange × List String :=
  if c = 'a' then (.ok (.Anonymous value), ps)
  else if c = 'i' then (.ok (.InviteOnly value), ps)
  else if c = 'm' then (.ok (.Moderated value), ps)
  else if c = 'n' then (.ok (.NoPrivMsgFromOutside value), ps)
  else if c = 'q' then (.ok (.Quiet value), ps)
  else if c = 'p' then (.ok (.Private value), ps)
  else if c = 't' then (.ok (.TopicRestricted value), ps)
  else if c = 'k' then
    match ps with
    | p :: rest => (.ok (.Key value p), rest)
    | [] => (.error .MissingModeParam, [])
  else if c = 'l' then
    match ps with
    | p :: rest => (.ok (.UserLimit (some p)), rest)
    | [] => (.ok (.UserLimit none), [])
  else if c = 'b' then
    match ps with
    | p :: rest => (.ok (.ChangeBan value p), rest)
    | [] => (.ok .GetBans, [])
  else if c = 'e' then
    match ps with
    | p :: rest => (.ok (.ChangeException value p), rest)
    | [] => (.ok .GetExceptions, [])
  else if c = 'I' then
    match ps with
    | p :: rest => (.ok (.ChangeInvitation value p), rest)
    | [] => (.ok .GetInvitations, [])
  else if c = 'o' then
    match ps with
    | p :: rest => (.ok (.ChangeOperator value p), rest)
    | [] => (.error .MissingModeParam, [])
  else if c = 'v' then
    match ps with
    | p :: rest => (.ok (.ChangeVoice value p), rest)
    | [] => (.error .MissingModeParam, [])
  else (.error (.UnknownMode c), ps)

/-- The channel mode query iterator, from `SimpleQuery::next` composed with
`ChannelQuery::next` (src/modes.rs): a `+` or `-` latches the sign for the
following letters, every other character is decoded by `channelModeDecode`.
The whole iterator is materialised as the list of its items. -/
def channelQuery : List Char → Bool → List String →
    List (Except ModeError ChannelModeChange)
  | [], _, _ => []
  | c :: rest, value, ps =>
    if c = '+' then channelQuery rest true ps
    else if c = '-' then channelQuery rest false ps
    else
      let (r, ps2) := channelModeDecode value c ps
      r :: channelQuery rest value ps2

/-- Entry point matching `ChannelQuery::new`, which starts with `value: true`. -/
def channelQueryRun (modes : String) (ps : List String) :
    List (Except ModeError ChannelModeChange) :=
  channelQuery modes.data true ps

/-! ## Channel records (`src/channel.rs`) -/

/-- Per-member channel modes, from `channel::MemberModes`. -/
structure MemberModes where
  creator : Bool
  operator : Bool
  voice : Bool
deriving DecidableEq, Repr

/-- The numeric replies returned by `Channel::apply_mode_change`
(`rpl::ERR_KEYSET` = 467, `rpl::ERR_USERNOTINCHANNEL` = 441). -/
inductive Reply where
  | ERR_KEYSET
  | ERR_USERNOTINCHANNEL
deriving DecidableEq, Repr

/-- Rust `str::parse::<usize>` for the user limit: optional leading `+`,
then only decimal digits, value below `2 ^ 64` (64-bit `usize`). -/
def parse_usize (s : String) : Option Nat :=
  let cs := match s.data with
    | '+' :: rest => rest
    | cs => cs
  if cs = [] then none
  else if cs.all Char.isDigit then
    let v := cs.foldl (fun a c => a * 10 + (c.toNat - 48)) 0
    if v < 2 ^ 64 then some v else none
  else none

/-- Channel data, from `channel::Channel`.  Members are keyed by a client
identifier (`Nat` standing for the slab index); the map is an association
list.  Mask `HashSet`s are lists inserted into only when absent.  The
feature-gated `msg_modifier` field is not modelled. -/
structure Channel where
  members : List (Nat × MemberModes)
  topic : Option String
  user_limit : Option Nat
  key : Option String
  ban_mask : List String
  exception_mask : List String
  invitation_mask : List String
  anonymous : Bool
  invite_only : Bool
  moderated : Bool
  no_privmsg_from_outside : Bool
  quiet : Bool
  secret : Bool
  reop : Bool
  topic_restricted : Bool
deriving DecidableEq, Repr

/-- `Channel::default()`. -/
def Channel.empty : Channel :=
  { members := [], topic := none, user_limit := none, key := none,
    ban_mask := [], exception_mask := [], invitation_mask := [],
    anonymous := false, invite_only := false, moderated := false,
    no_privmsg_from_outside := false, quiet := false, secret := false,
    reop := false, topic_restricted := false }

/-- `HashSet::insert`: returns the new set and whether the value was new. -/
def hash_set_insert (l : List String) (x : String) : List String × Bool :=
  if x ∈ l then (l, false) else (x :: l, true)

/-- `HashSet::remove`: returns the new set and whether the value was present. -/
def hash_set_remove (l : List String) (x : String) : List String × Bool :=
  (l.filter (fun y => y ≠ x), x ∈ l)

/-- The member-mode update loop shared by the `ChangeOperator` and
`ChangeVoice` arms of `Channel::apply_mode_change`: find the first member
whose nick is `param` and set its `operator` flag (both arms of the source
mutate `modes.operator`; the `ChangeVoice` arm setting `operator` instead of
`voice` is reproduced faithfully).  Returns `none` when no member matches
(`ERR_USERNOTINCHANNEL`), otherwise the updated list and whether the flag
changed. -/
def change_member_operator (value : Bool) (param : String) (nick_of : Nat → String) :
    List (Nat × MemberModes) → Option (List (Nat × MemberModes) × Bool)
  | [] => none
  | (i, m) :: rest =>
    if nick_of i = param then
      some ((i, { m with operator := value }) :: rest, m.operator ≠ value)
    else
      (change_member_operator value param nick_of rest).map
        (fun r => ((i, m) :: r.1, r.2))

/-- `Channel::apply_mode_change` (src/channel.rs:145-289).  Returns the channel
after the change together with `Ok(applied)` or the error reply; on an error
the source returns before mutating, so the original channel is returned. -/
def apply_mode_change (ch : Channel) (change : ChannelModeChange)
    (nick_of : Nat → String) : Channel × Except Reply Bool :=
  match change with
  | .Anonymous value =>
    ({ ch with anonymous := value }, .ok (ch.anonymous ≠ value))
  | .InviteOnly value =>
    ({ ch with invite_only := value }, .ok (ch.invite_only ≠ value))
  | .Moderated value =>
    ({ ch with moderated := value }, .ok (ch.moderated ≠ value))
  | .NoPrivMsgFromOutside value =>
    ({ ch with no_privmsg_from_outside := value },
     .ok (ch.no_privmsg_from_outside ≠ value))
  | .Quiet value =>
    ({ ch with quiet := value }, .ok (ch.quiet ≠ value))
  | .Secret value =>
    ({ ch with secret := value }, .ok (ch.secret ≠ value))
  | .TopicRestricted value =>
    ({ ch with topic_restricted := value }, .ok (ch.topic_restricted ≠ value))
  | .Key value key =>
    if value then
      match ch.key with
      | some _ => (ch, .error .ERR_KEYSET)
      | none => ({ ch with key := some key }, .ok true)
    else
      match ch.key with
      | some chan_key =>
        if key = chan_key then ({ ch with key := none }, .ok true)
        else (ch, .ok false)
      | none => (ch, .ok false)
  | .UserLimit (some s) =>
    match parse_usize s with
    | some limit =>
      ({ ch with user_limit := some limit },
       .ok (match ch.user_limit with
            | none => true
            | some chan_limit => chan_limit ≠ limit))
    | none => (ch, .ok false)
  | .UserLimit none =>
    ({ ch with user_limit := none }, .ok ch.user_limit.isSome)
  | .ChangeBan value param =>
    if value then
      let r := hash_set_insert ch.ban_mask param
      ({ ch with ban_mask := r.1 }, .ok r.2)
    else
      let r := hash_set_remove ch.ban_mask param
      ({ ch with ban_mask := r.1 }, .ok r.2)
  | .ChangeException value param =>
    if value then
      let r := hash_set_insert ch.exception_mask param
      ({ ch with exception_mask := r.1 }, .ok r.2)
    else
      let r := hash_set_remove ch.exception_mask param
      ({ ch with exception_mask := r.1 }, .ok r.2)
  | .ChangeInvitation value param =>
    if value then
      let r := hash_set_insert ch.invitation_mask param
      ({ ch with invitation_mask := r.1 }, .ok r.2)
    else
      let r := hash_set_remove ch.invitation_mask param
      ({ ch with invitation_mask := r.1 }, .ok r.2)
  | .ChangeOperator value param =>
    match change_member_operator value param nick_of ch.members with
    | none => (ch, .error .ERR_USERNOTINCHANNEL)
    | some r => ({ ch with members := r.1 }, .ok r.2)
  | .ChangeVoice value param =>
    match change_member_operator value param nick_of ch.members with
    | none => (ch, .error .ERR_USERNOTINCHANNEL)
    | some r => ({ ch with members := r.1 }, .ok r.2)
  | _ => (ch, .ok false)

/-- `Channel::can_talk` (src/channel.rs:108-114), on `Nat` member keys. -/
def Channel.can_talk (ch : Channel) (id : Nat) : Bool :=
  if ch.moderated then
    match ch.members.lookup id with
    | some m => m.voice || m.operator
    | none => false
  else
    !ch.no_privmsg_from_outside || (ch.members.map Prod.fst).contains id

/-! ## Clients and capabilities

The `Client` record lives in `client.rs`, which is not among the sources at
hand; its fields and helpers are modelled from the specification (sections 3,
4.4): a negotiated capability set, the registration gates as a product of
booleans, nick/user/realname/host, an optional away message. -/

/-- Modelled from the spec: the fixed enumeration of supported capability
tokens (section 4.4), plus the CAP-version flag (`CAP LS 302`). -/
structure Capabilities where
  account_notify : Bool
  away_notify : Bool
  batch : Bool
  cap_notify : Bool
  echo_message : Bool
  invite_notify : Bool
  labeled_response : Bool
  message_tags : Bool
  multi : Bool
  sasl : Bool
  server_time : Bool
  setname : Bool
  userhost_in_names : Bool
  v302 : Bool
deriving DecidableEq, Repr

/-- The empty capability set (nothing negotiated). -/
def Capabilities.none : Capabilities :=
  { account_notify := false, away_notify := false, batch := false,
    cap_notify := false, echo_message := false, invite_notify := false,
    labeled_response := false, message_tags := false, multi := false,
    sasl := false, server_time := false, setname := false,
    userhost_in_names := false, v302 := false }

/-- The IRC commands, from `Command` in the tokens crate (variant list read
off the dispatch table in `StateInner::handle_message_inner` and the
`points_of` table, src/state/mod.rs:454-537). -/
inductive Command where
  | Admin | Authenticate | Away | Cap | Info | Invite | Join | Kick | Kill
  | List | Lusers | Mode | Motd | Names | Nick | Notice | Oper | Part | Pass
  | Ping | Pong | PrivMsg | Quit | Rehash | SetName | TagMsg | Time | Topic
  | User | Version | Who | Whois
  | Reply (code : String)
deriving DecidableEq, Repr

/-- Command names on the wire (tokens crate; the mapping is the standard
IRC verb for each variant). -/
def Command.as_str : Command → String
  | .Admin => "ADMIN" | .Authenticate => "AUTHENTICATE" | .Away => "AWAY"
  | .Cap => "CAP" | .Info => "INFO" | .Invite => "INVITE" | .Join => "JOIN"
  | .Kick => "KICK" | .Kill => "KILL" | .List => "LIST" | .Lusers => "LUSERS"
  | .Mode => "MODE" | .Motd => "MOTD" | .Names => "NAMES" | .Nick => "NICK"
  | .Notice => "NOTICE" | .Oper => "OPER" | .Part => "PART" | .Pass => "PASS"
  | .Ping => "PING" | .Pong => "PONG" | .PrivMsg => "PRIVMSG"
  | .Quit => "QUIT" | .Rehash => "REHASH" | .SetName => "SETNAME"
  | .TagMsg => "TAGMSG" | .Time => "TIME" | .Topic => "TOPIC"
  | .User => "USER" | .Version => "VERSION" | .Who => "WHO"
  | .Whois => "WHOIS" | .Reply code => code

/-- Modelled from the spec: `Capabilities::is_capable_of` (client.rs is not
among the sources).  Section 4.7 step 5: commands such as AUTHENTICATE,
TAGMSG, SETNAME require the corresponding negotiated capability. -/
def Capabilities.is_capable_of (caps : Capabilities) : Command → Bool
  | .Authenticate => caps.sasl
  | .TagMsg => caps.message_tags
  | .SetName => caps.setname
  | _ => true

/-- Per-connection client state.  Modelled from the spec (client.rs is not
among the sources): registration is a product of independent gates
(section 4.4); `pass_ok` is `true` when no global password is configured. -/
structure Client where
  nick : String
  user : String
  real : String
  host : String
  caps : Capabilities
  got_nick : Bool
  got_user : Bool
  pass_ok : Bool
  cap_ended : Bool
  sasl_ok : Bool
  operator : Bool
  away_message : Option String
deriving DecidableEq, Repr

/-- Modelled from the spec: a client is registered iff all gates are
satisfied (section 4.4, glossary). -/
def Client.is_registered (c : Client) : Bool :=
  c.got_nick && c.got_user && c.pass_ok && c.cap_ended && c.sasl_ok

/-- Modelled from the spec: `Client::full_name`, the `nick!~user@host` prefix
(shape taken from the welcome example in section 8). -/
def Client.full_name (c : Client) : String :=
  c.nick ++ "!~" ++ c.user ++ "@" ++ c.host

/-! ## Network state (`src/state/mod.rs`) -/

/-- ASCII case folding used by `ellidri_unicase::UniCase` (the
`CASEMAPPING=ascii` casemap): `A`-`Z` map to `a`-`z`. -/
def ascii_fold (s : String) : String :=
  ⟨s.data.map (fun c =>
    if 'A' ≤ c ∧ c ≤ 'Z' then Char.ofNat (c.toNat + 32) else c)⟩

/-- One outbound IRC line, reduced to the parts the claims are about:
the prefix (origin), the command/numeric, and its parameters.  Tag and
length bookkeeping of the reply buffer is not modelled. -/
structure OutMsg where
  origin : String
  command : String
  params : List String
deriving DecidableEq, Repr

/-- The configuration consumed by the state (`config::State`; config.rs is
not among the sources, the field list is read off `StateInner::new` and
`StateInner::rehash`, src/state/mod.rs:224-277). -/
structure Config where
  domain : String
  org_name : String
  org_location : String
  org_mail : String
  motd_file : String
  password : Option String
  default_chan_mode : String
  opers : List (String × String)
  awaylen : Nat
  channellen : Nat
  kicklen : Nat
  namelen : Nat
  nicklen : Nat
  topiclen : Nat
  userlen : Nat
  login_timeout : Nat
deriving DecidableEq, Repr

/-- The shared network state, from `StateInner` (src/state/mod.rs:166-221).
The slab of clients and the two hash maps are association lists; the boxed
auth provider is identified by a `Nat` handle; the rehash `Notify` handle
carries no data and is omitted. -/
structure StateInner where
  domain : String
  org_name : String
  org_location : String
  org_mail : String
  clients : List (Nat × Client)
  nicks : List (String × Nat)
  channels : List (String × Channel)
  created_at : String
  motd : Option String
  password : Option String
  default_chan_mode : String
  opers : List (String × String)
  awaylen : Nat
  channellen : Nat
  kicklen : Nat
  namelen : Nat
  nicklen : Nat
  topiclen : Nat
  userlen : Nat
  login_timeout : Nat
  auth_provider : Nat
deriving DecidableEq, Repr

/-- `StateInner::rehash` (src/state/mod.rs:261-277), field for field: the
assignment list of the source, nothing more (in particular `org_mail`,
`nicklen`, `created_at` and the three maps do not appear there). -/
def StateInner.rehash (st : StateInner) (config : Config)
    (auth_provider : Nat) : StateInner :=
  { st with
    domain := config.domain,
    org_name := config.org_name,
    org_location := config.org_location,
    motd := if config.motd_file = "" then none else some config.motd_file,
    password := config.password,
    default_chan_mode := config.default_chan_mode,
    opers := config.opers,
    awaylen := config.awaylen,
    channellen := config.channellen,
    kicklen := config.kicklen,
    namelen := config.namelen,
    topiclen := config.topiclen,
    userlen := config.userlen,
    login_timeout := config.login_timeout,
    auth_provider := auth_provider }

/-- Replace the entry of client `id` (used for `clients.get_mut(id)`
followed by a field update). -/
def update_client (l : List (Nat × Client)) (id : Nat) (c : Client) :
    List (Nat × Client) :=
  l.map (fun p => if p.1 = id then (id, c) else p)

/-- The member identifiers of the channels that contain `src`, deduplicated:
the `HashSet` built by `StateInner::send_notification`
(src/state/mod.rs:703-706). -/
def notif_base (st : StateInner) (src : Nat) : List Nat :=
  ((st.channels.filter
      (fun p => (p.2.members.map Prod.fst).contains src)).flatMap
    (fun p => p.2.members.map Prod.fst)).dedup

/-- The recipient filter of `send_notification`: not the originator, and the
caller-supplied predicate holds of the recipient's client record (the source
indexes `self.clients[id]`; a recipient with no record is not sent to, which
is also the behaviour of the final `self.send`). -/
def notif_pred (st : StateInner) (src : Nat) (filt : Nat → Client → Bool)
    (i : Nat) : Bool :=
  (decide (src ≠ i)) &&
    (match st.clients.lookup i with
     | some c => filt i c
     | Option.none => false)

/-- `StateInner::send_notification` (src/state/mod.rs:698-713): fan a message
out to the deduplicated union of the memberships of every channel containing
`src`, excluding `src`, filtered by `filt`; deliveries are returned as
`(recipient, message)` pairs (the source enqueues on each recipient's sink,
checking the recipient still exists). -/
def send_notification (st : StateInner) (src : Nat) (msg : OutMsg)
    (filt : Nat → Client → Bool) : List (Nat × OutMsg) :=
  let noticed := notif_base st src
  let noticed := if src ∈ noticed then noticed else src :: noticed
  let targets := noticed.filter (notif_pred st src filt)
  targets.map (fun i => (i, msg))

/-- Modelled from the spec: `lines::CLOSING_LINK` (lines.rs is not among the
sources); only its identity matters to the claims. -/
def CLOSING_LINK : String := "Closing link"

/-- `StateInner::remove_client` (src/state/mod.rs:308-328), called with the
client already removed from `clients`: broadcast QUIT to every peer sharing a
channel, send ERROR to the quitter's own sink, drop the quitter from every
channel, drop channels left empty, unbind the nick.  Returns the new state,
the broadcast deliveries, and the lines sent to the quitter's sink. -/
def remove_client (st : StateInner) (id : Nat) (client : Client)
    (err : String) (reason : Option String) :
    StateInner × List (Nat × OutMsg) × List OutMsg :=
  let quit_msg : OutMsg :=
    { origin := client.full_name, command := "QUIT", params := reason.toList }
  let deliveries := send_notification st id quit_msg (fun _ _ => true)
  let error_msg : OutMsg := { origin := "", command := "ERROR", params := [err] }
  let channels :=
    (st.channels.map
        (fun p => (p.1, { p.2 with
          members := p.2.members.filter (fun m => m.1 ≠ id) }))).filter
      (fun p => p.2.members ≠ [])
  let nicks := st.nicks.filter (fun p => p.1 ≠ ascii_fold client.nick)
  ({ st with channels := channels, nicks := nicks }, deliveries, [error_msg])

/-- `StateInner::peer_quit` (src/state/mod.rs:285-297): no-op when the client
is unknown; otherwise remove it from `clients` and run `remove_client`, the
QUIT reason and the ERROR text both being the I/O error when there is one,
else no reason and `lines::CLOSING_LINK`. -/
def peer_quit (st : StateInner) (id : Nat) (err : Option String) :
    StateInner × List (Nat × OutMsg) × List OutMsg :=
  match st.clients.lookup id with
  | Option.none => (st, [], [])
  | some client =>
    let st1 := { st with clients := st.clients.filter (fun p => p.1 ≠ id) }
    match err with
    | some e => remove_client st1 id client e (some e)
    | Option.none => remove_client st1 id client CLOSING_LINK Option.none

/-! ## Command handlers -/

/-- The outcome of one command handler: the new state, the reply lines queued
for the issuing client, the deliveries to other clients, and the handler's
`Result` (`ok = true` for `Ok(())`). -/
structure CmdOut where
  state : StateInner
  replies : List OutMsg
  deliveries : List (Nat × OutMsg)
  ok : Bool
deriving DecidableEq, Repr

/-- Numeric replies used by the paths below (`rpl` module of the tokens
crate; the numerics are the RFC 2812 codes the names abbreviate). -/
def err_NOSUCHNICK (target : String) : OutMsg :=
  { origin := "", command := "401", params := [target] }

def err_NOSUCHCHANNEL (target : String) : OutMsg :=
  { origin := "", command := "403", params := [target] }

def err_CANNOTSENDTOCHAN (target : String) : OutMsg :=
  { origin := "", command := "404", params := [target] }

def err_NOTEXTTOSEND : OutMsg :=
  { origin := "", command := "412", params := [] }

def rpl_AWAY (target : String) (away : String) : OutMsg :=
  { origin := "", command := "301", params := [target, away] }

def fail_SETNAME : OutMsg :=
  { origin := "", command := "FAIL", params := ["SETNAME", "INVALID_REALNAME"] }

/-- Modelled from the spec: the capability tokens the server supports
(section 4.4 lists the fixed enumeration; `cap::are_supported` lives in
client.rs, which is not among the sources). -/
def supported_tokens : List String :=
  ["account-notify", "away-notify", "batch", "cap-notify", "echo-message",
   "invite-notify", "labeled-response", "message-tags", "multi-prefix",
   "sasl", "server-time", "setname", "userhost-in-names"]

/-- Split a character list on spaces, dropping empty pieces; `acc` holds the
reversed characters of the token being read. -/
def cap_tokens_aux : List Char → List Char → List String
  | [], acc => if acc = [] then [] else [⟨acc.reverse⟩]
  | ch :: rest, acc =>
    if ch = ' ' then
      if acc = [] then cap_tokens_aux rest []
      else ⟨acc.reverse⟩ :: cap_tokens_aux rest []
    else cap_tokens_aux rest (ch :: acc)

/-- The whitespace-separated tokens of a `CAP REQ` argument. -/
def cap_tokens (s : String) : List String :=
  cap_tokens_aux s.data []

/-- Modelled from the spec: `cap::are_supported` — every requested token must
be in the supported enumeration. -/
def are_supported (s : String) : Bool :=
  (cap_tokens s).all (fun t => supported_tokens.contains t)

/-- Modelled from the spec: enable one capability token. -/
def Capabilities.enable (caps : Capabilities) (tok : String) : Capabilities :=
  if tok = "account-notify" then { caps with account_notify := true }
  else if tok = "away-notify" then { caps with away_notify := true }
  else if tok = "batch" then { caps with batch := true }
  else if tok = "cap-notify" then { caps with cap_notify := true }
  else if tok = "echo-message" then { caps with echo_message := true }
  else if tok = "invite-notify" then { caps with invite_notify := true }
  else if tok = "labeled-response" then { caps with labeled_response := true }
  else if tok = "message-tags" then { caps with message_tags := true }
  else if tok = "multi-prefix" then { caps with multi := true }
  else if tok = "sasl" then { caps with sasl := true }
  else if tok = "server-time" then { caps with server_time := true }
  else if tok = "setname" then { caps with setname := true }
  else if tok = "userhost-in-names" then { caps with userhost_in_names := true }
  else caps

/-- Modelled from the spec: `Client::update_capabilities` — apply every
requested token to the capability set. -/
def update_capabilities (caps : Capabilities) (s : String) : Capabilities :=
  (cap_tokens s).foldl Capabilities.enable caps

/-- `StateInner::cmd_cap_req` (src/state/ircv3.rs:43-52): all-or-nothing —
any unsupported token means `NAK` and an unchanged state, otherwise the set
is updated and `ACK` sent. -/
def cmd_cap_req (st : StateInner) (id : Nat) (capabilities : String) : CmdOut :=
  match st.clients.lookup id with
  | Option.none => { state := st, replies := [], deliveries := [], ok := false }
  | some client =>
    if !are_supported capabilities then
      { state := st,
        replies := [{ origin := "", command := "CAP",
                      params := ["NAK", capabilities] }],
        deliveries := [], ok := false }
    else
      let client2 := { client with
        caps := update_capabilities client.caps capabilities }
      { state := { st with clients := update_client st.clients id client2 },
        replies := [{ origin := "", command := "CAP",
                      params := ["ACK", capabilities] }],
        deliveries := [], ok := true }

/-- `StateInner::cmd_setname` (src/state/ircv3.rs:172-190): reject an empty
or over-long realname with `FAIL SETNAME INVALID_REALNAME`; otherwise store
the new realname, echo `SETNAME` to the issuer, and fan it out with
`send_notification` under the always-true filter of the source. -/
def cmd_setname (st : StateInner) (id : Nat) (real : String) : CmdOut :=
  if real = "" ∨ st.namelen < real.length then
    { state := st, replies := [fail_SETNAME], deliveries := [], ok := false }
  else
    match st.clients.lookup id with
    | Option.none => { state := st, replies := [], deliveries := [], ok := false }
    | some client =>
      let note : OutMsg :=
        { origin := client.full_name, command := "SETNAME", params := [real] }
      let client2 := { client with real := real }
      let st2 := { st with clients := update_client st.clients id client2 }
      { state := st2, replies := [note],
        deliveries := send_notification st2 id note (fun _ _ => true),
        ok := true }

/-- `is_valid_channel_name` (src/state/mod.rs:882-892): nonempty, within the
length limit, starting with `#` or `&`, and free of space, comma, BEL and
colon. -/
def is_valid_channel_name (s : String) (max_len : Nat) : Bool :=
  match s.data with
  | [] => false
  | first :: _ =>
    decide (s.length ≤ max_len) &&
    (decide (first = '#') || decide (first = '&')) &&
    s.data.all (fun c =>
      c ≠ ' ' && c ≠ ',' && c ≠ Char.ofNat 7 && c ≠ ':')

/-- `find_nick` (src/state/mod.rs:578-590): look the case-folded nick up in
`nicks`, fetch the client, and keep it only if it is registered; the caller
reports `ERR_NOSUCHNICK` on `none`. -/
def find_nick (clients : List (Nat × Client)) (nicks : List (String × Nat))
    (nick : String) : Option (Nat × Client) :=
  match nicks.lookup (ascii_fold nick) with
  | Option.none => Option.none
  | some i =>
    match clients.lookup i with
    | Option.none => Option.none
    | some c => if c.is_registered then some (i, c) else Option.none

/-- `StateInner::build_message` (src/state/mod.rs:601-642), reduced to the
delivered line; the synthesised `msgid`/`time` tags and the tag-offset
bookkeeping are not modelled. -/
def build_message (sender : Client) (cmd : Command) (target : String)
    (content : Option String) : OutMsg :=
  { origin := sender.full_name, command := cmd.as_str,
    params := [target] ++ content.toList }

/-- `StateInner::send_query_or_channel_msg` (src/state/mod.rs:644-696):
the shared PRIVMSG/NOTICE/TAGMSG path.  Empty text is `ERR_NOTEXTTOSEND`;
a channel-shaped target goes through `find_channel` and `can_talk` and is
fanned out to every other capable member; any other target goes through
`find_nick` (`ERR_NOSUCHNICK` on failure) and is delivered to the target
alone, with an `RPL_AWAY` echo when the target is away.  The sender gets an
echo of its own message when it negotiated `echo-message`. -/
def send_query_or_channel_msg (st : StateInner) (id : Nat) (cmd : Command)
    (target : String) (content : Option String) : CmdOut :=
  match st.clients.lookup id with
  | Option.none => { state := st, replies := [], deliveries := [], ok := false }
  | some client =>
    if content = some "" then
      { state := st, replies := [err_NOTEXTTOSEND], deliveries := [],
        ok := false }
    else if is_valid_channel_name target st.channellen then
      match st.channels.lookup (ascii_fold target) with
      | Option.none =>
        { state := st, replies := [err_NOSUCHCHANNEL target],
          deliveries := [], ok := false }
      | some channel =>
        if !channel.can_talk id then
          { state := st, replies := [err_CANNOTSENDTOCHAN target],
            deliveries := [], ok := false }
        else
          let msg := build_message client cmd target content
          let echo := if client.caps.echo_message then [msg] else []
          let dlv := ((channel.members.map Prod.fst).filter (fun i =>
              (decide (i ≠ id)) &&
                (match st.clients.lookup i with
                 | some c => c.caps.is_capable_of cmd
                 | Option.none => false))).map (fun i => (i, msg))
          { state := st, replies := echo, deliveries := dlv, ok := true }
    else
      match find_nick st.clients st.nicks target with
      | Option.none =>
        { state := st, replies := [err_NOSUCHNICK target], deliveries := [],
          ok := false }
      | some (tid, tc) =>
        if !tc.caps.is_capable_of cmd then
          { state := st, replies := [], deliveries := [], ok := false }
        else
          let msg := build_message client cmd target content
          let echo := if client.caps.echo_message then [msg] else []
          let away := match tc.away_message with
            | some a => [rpl_AWAY target a]
            | Option.none => []
          { state := st, replies := echo ++ away, deliveries := [(tid, msg)],
            ok := true }

/-! ## The dispatcher (`StateInner::handle_message`) -/

deriving instance DecidableEq for Except

/-- One parsed inbound message, from `Message` in the tokens crate: the raw
tag blob, the resolved command (or the unknown verb), the parameters and
their count. -/
structure Msg where
  tags : String
  command : Except String Command
  params : List String
  num_params : Nat
deriving DecidableEq, Repr

/-- `msg.params[i]`: the parameter array is padded with empty strings. -/
def Msg.getP (m : Msg) (i : Nat) : String := m.params.getD i ""

/-- `points_of` (src/state/mod.rs:502-538), the per-command point table. -/
def points_of : Command → Nat
  | .Admin => 1
  | .Authenticate => 6
  | .Away => 4
  | .Cap => 1
  | .Info => 2
  | .Invite => 4
  | .Join => 4
  | .Kick => 2
  | .Kill => 2
  | .List => 6
  | .Lusers => 2
  | .Mode => 2
  | .Motd => 2
  | .Names => 2
  | .Nick => 4
  | .Notice => 4
  | .Oper => 6
  | .Part => 4
  | .Pass => 2
  | .Ping => 1
  | .Pong => 1
  | .PrivMsg => 4
  | .Quit => 1
  | .Rehash => 1
  | .SetName => 4
  | .TagMsg => 4
  | .Time => 2
  | .Topic => 3
  | .User => 1
  | .Version => 1
  | .Who => 3
  | .Whois => 3
  | .Reply _ => 1

/-- Modelled from the spec: the minimum parameter count behind
`Message::has_enough_params` (tokens crate, not among the sources).  The
values are read off the parameter usage of the dispatch table and section
4.7 step 6; the claims use this only as a gate hypothesis. -/
def required_params : Command → Nat
  | .Admin | .Info | .Lusers | .Motd | .Rehash | .Time | .Version | .Pong
  | .Names | .List | .Away | .Quit | .Reply _ => 0
  | .Authenticate | .Cap | .Nick | .Whois | .Ping | .Pass | .SetName
  | .TagMsg | .Part | .Join | .Mode | .Who | .Topic => 1
  | .Notice | .PrivMsg | .Invite | .Oper | .Kill => 2
  | .Kick => 3
  | .User => 4

/-- `Message::has_enough_params` over the modelled arity table. -/
def has_enough_params (cmd : Command) (n : Nat) : Bool :=
  required_params cmd ≤ n

/-- Modelled from the spec: `Client::can_issue_command` (client.rs is not
among the sources).  Section 4.7 step 7: USER and PASS only before
registration, the connection-establishment commands always, everything else
only once registered. -/
def can_issue_command (c : Client) (cmd : Command) (_sub : String) : Bool :=
  match cmd with
  | .User | .Pass => !c.is_registered
  | .Nick | .Cap | .Authenticate | .Quit | .Ping | .Pong | .Reply _ => true
  | _ => c.is_registered

/-- Modelled from the spec: `Client::apply_command` (client.rs is not among
the sources) — advance the registration gates after a successful command
(section 4.4); commands without a gate leave the client unchanged. -/
def apply_command (c : Client) (cmd : Command) (sub : String) : Client :=
  match cmd with
  | .Nick => { c with got_nick := true }
  | .User => { c with got_user := true }
  | .Pass => { c with pass_ok := true }
  | .Cap => if sub = "END" then { c with cap_ended := true } else c
  | _ => c

/-- Modelled from the spec: the QUIT handler (`cmd_quit` lives in rfc2812.rs,
which is not among the sources).  Section 4.8 and the comment on
`remove_client` (src/state/mod.rs:299-300): identical cleanup to `peer_quit`
with the client-supplied reason. -/
def cmd_quit (st : StateInner) (id : Nat) (reason : String) :
    StateInner × Bool :=
  match st.clients.lookup id with
  | Option.none => (st, false)
  | some client =>
    let st1 := { st with clients := st.clients.filter (fun p => p.1 ≠ id) }
    let r := remove_client st1 id client CLOSING_LINK (some reason)
    (r.1, true)

/-- The CAP sub-command dispatch of `StateInner::cmd_cap`
(src/state/ircv3.rs:54-68), keeping only the state and the result; the
LS/LIST bodies are reply-only (the CAP-version flag set by LS is not
modelled, no claim depends on it). -/
def cmd_cap (st : StateInner) (id : Nat) (sub : String) (arg : String) :
    StateInner × Bool :=
  if sub = "END" then (st, true)
  else if sub = "LIST" then (st, true)
  else if sub = "LS" then (st, true)
  else if sub = "REQ" then
    let r := cmd_cap_req st id arg
    (r.state, r.ok)
  else (st, false)

/-- `StateInner::handle_message_inner` (src/state/mod.rs:443-489), reduced to
the state and the handler result.  The handlers present in the sources
(QUIT via `remove_client`, CAP, SETNAME, PRIVMSG/NOTICE/TAGMSG via
`send_query_or_channel_msg`) are embedded above; the remaining handlers live
in rfc2812.rs, which is not among the sources, and are modelled from the
spec as state-preserving successes (the claims about this function only
depend on the embedded arms or quantify over the outcome). -/
def handle_message_inner (st : StateInner) (id : Nat) (msg : Msg) :
    StateInner × Bool :=
  match msg.command with
  | .error _ => (st, false)
  | .ok cmd =>
    match cmd with
    | .Quit => cmd_quit st id (msg.getP 0)
    | .Cap => cmd_cap st id (msg.getP 0) (msg.getP 1)
    | .SetName =>
      let r := cmd_setname st id (msg.getP 0)
      (r.state, r.ok)
    | .PrivMsg =>
      let r := send_query_or_channel_msg st id .PrivMsg (msg.getP 0)
        (some (msg.getP 1))
      (r.state, r.ok)
    | .Notice =>
      let r := send_query_or_channel_msg st id .Notice (msg.getP 0)
        (some (msg.getP 1))
      (r.state, r.ok)
    | .TagMsg =>
      let r := send_query_or_channel_msg st id .TagMsg (msg.getP 0)
        Option.none
      (r.state, r.ok)
    | _ => (st, true)

/-- The outcome of `StateInner::handle_message`: the new state, the
`Result<u32, ()>` (points consumed, or `Err` when the client is gone), and
whether the welcome suite was streamed. -/
structure HandleOutcome where
  state : StateInner
  result : Except Unit Nat
  welcome_sent : Bool

/-- `StateInner::handle_message` (src/state/mod.rs:330-441): the validation
gates in source order — client existence, tag-blob size (`Ok(3)`), command
resolution (`Ok(1)`), capability gate (`Ok(2)`), arity (`Ok(1)`),
`can_issue_command` (`Ok(2)`) — then dispatch; if the handler removed the
client the result is `Err(())`, otherwise a successful handler advances the
registration gates (streaming the welcome suite on the transition into the
registered state) and costs `points_of`, and a failed one costs double.
The reply lines of the gates and the labeled-response envelope are not
modelled (they do not touch the state or the result). -/
def handle_message (st : StateInner) (id : Nat) (msg : Msg) : HandleOutcome :=
  match st.clients.lookup id with
  | Option.none => { state := st, result := .error (), welcome_sent := false }
  | some client =>
    if 4094 < msg.tags.length then
      { state := st, result := .ok 3, welcome_sent := false }
    else
      match msg.command with
      | .error _ => { state := st, result := .ok 1, welcome_sent := false }
      | .ok command =>
        if !client.caps.is_capable_of command then
          { state := st, result := .ok 2, welcome_sent := false }
        else if !has_enough_params command msg.num_params then
          { state := st, result := .ok 1, welcome_sent := false }
        else if !can_issue_command client command (msg.getP 0) then
          { state := st, result := .ok 2, welcome_sent := false }
        else
          let inner := handle_message_inner st id msg
          match inner.1.clients.lookup id with
          | Option.none =>
            { state := inner.1, result := .error (), welcome_sent := false }
          | some c1 =>
            if inner.2 then
              let c2 := apply_command c1 command (msg.getP 0)
              { state := { inner.1 with
                  clients := update_client inner.1.clients id c2 },
                result := .ok (points_of command),
                welcome_sent := c2.is_registered && !c1.is_registered }
            else
              { state := inner.1, result := .ok (points_of command * 2),
                welcome_sent := false }

/-! ## Sample data for concrete evaluations -/

/-- Member modes of an ordinary member. -/
def mm0 : MemberModes := { creator := false, operator := false, voice := false }

/-- A registered client with no negotiated capabilities. -/
def sample_client (nick : String) : Client :=
  { nick := nick, user := nick, real := nick, host := "127.0.0.1",
    caps := Capabilities.none, got_nick := true, got_user := true,
    pass_ok := true, cap_ended := true, sasl_ok := true,
    operator := false, away_message := Option.none }

/-- A connected but not-yet-registered client (USER not yet sent). -/
def unreg_client (nick : String) : Client :=
  { sample_client nick with got_user := false }

/-- A channel whose members are exactly `ids`. -/
def sample_channel (ids : List Nat) : Channel :=
  { Channel.empty with members := ids.map (fun i => (i, mm0)) }

/-- A network state around the given maps, with the configuration of the
spec's end-to-end scenarios (`domain = "elli.dri"`, `NICKLEN = 9`). -/
def sample_state (clients : List (Nat × Client)) (nicks : List (String × Nat))
    (channels : List (String × Channel)) : StateInner :=
  { domain := "elli.dri", org_name := "org", org_location := "loc",
    org_mail := "admin@elli.dri", clients := clients, nicks := nicks,
    channels := channels, created_at := "2020-01-01", motd := Option.none,
    password := Option.none, default_chan_mode := "+nt", opers := [],
    awaylen := 300, channellen := 50, kicklen := 300, namelen := 64,
    nicklen := 9, topiclen := 300, userlen := 64, login_timeout := 60000,
    auth_provider := 0 }

/-- The QUIT-cascade scenario of the spec: ser, bob and cat all in `#room`
and `#lobby`. -/
def st3 : StateInner :=
  sample_state
    [(0, sample_client "ser"), (1, sample_client "bob"),
     (2, sample_client "cat")]
    [("ser", 0), ("bob", 1), ("cat", 2)]
    [("#room", sample_channel [0, 1, 2]), ("#lobby", sample_channel [0, 1, 2])]

/-- A state where nick `eve` is bound in `nicks` to a connected but
unregistered client. -/
def st_unreg : StateInner :=
  sample_state
    [(0, sample_client "ser"), (1, unreg_client "eve")]
    [("ser", 0), ("eve", 1)]
    [("#room", sample_channel [0])]

/-- A parsed `PONG` line. -/
def msg_pong : Msg :=
  { tags := "", command := .ok .Pong, params := [], num_params := 0 }

/-- A parsed `QUIT :bye` line. -/
def msg_quit : Msg :=
  { tags := "", command := .ok .Quit, params := ["bye"], num_params := 1 }

/-- A configuration differing from `sample_state` in every mutable field. -/
def cfg_new : Config :=
  { domain := "new.dri", org_name := "neworg", org_location := "newloc",
    org_mail := "admin@new.dri", motd_file := "hello",
    password := some "pw", default_chan_mode := "+i",
    opers := [("root", "hunter2")], awaylen := 100, channellen := 20,
    kicklen := 100, namelen := 32, nicklen := 30, topiclen := 100,
    userlen := 32, login_timeout := 1000 }

/-! ## Helper lemmas -/

theorem lookup_filter_ne {α : Type} (l : List (Nat × α)) (k q : Nat)
    (h : k ≠ q) :
    (l.filter (fun p => p.1 ≠ q)).lookup k = l.lookup k := by
  induction l with
  | nil => rfl
  | cons p rest ih =>
    simp only [List.filter_cons, ne_eq, decide_not] at ih ⊢
    by_cases hp : p.1 = q
    · have hk : (k == q) = false := beq_eq_false_iff_ne.mpr h
      simp [hp, List.lookup, hk, ih]
    · cases hkp : k == p.1 <;> simp [hp, List.lookup, hkp, ih]

theorem lookup_filter_self {κ α : Type} [BEq κ] [LawfulBEq κ] [DecidableEq κ]
    (l : List (κ × α)) (k : κ) :
    (l.filter (fun p => p.1 ≠ k)).lookup k = Option.none := by
  induction l with
  | nil => rfl
  | cons p rest ih =>
    simp only [List.filter_cons, ne_eq, decide_not] at ih ⊢
    by_cases hp : p.1 = k
    · simp [hp, ih]
    · have hk : (k == p.1) = false :=
        beq_eq_false_iff_ne.mpr (fun hh => hp hh.symm)
      simp [hp, List.lookup, hk, ih]

theorem nodup_filter_eq_self (l : List Nat) (B : Nat) (hn : l.Nodup)
    (hm : B ∈ l) : l.filter (fun i => i = B) = [B] := by
  induction l with
  | nil => cases hm
  | cons a rest ih =>
    have hna := (List.nodup_cons.mp hn).1
    have hnr := (List.nodup_cons.mp hn).2
    by_cases h : a = B
    · subst h
      have hfil : rest.filter (fun i => i = a) = [] := by
        apply List.filter_eq_nil_iff.mpr
        intro x hx
        simp only [decide_eq_true_eq]
        rintro rfl
        exact hna hx
      simp [List.filter_cons, hfil]
    · have hm' : B ∈ rest := by
        rcases List.mem_cons.mp hm with h1 | h1
        · exact absurd h1.symm h
        · exact h1
      simp only [List.filter_cons, decide_eq_true_eq]
      rw [if_neg h]
      exact ih hnr hm'

theorem map_pair_filter (l : List Nat) (m : OutMsg) (B : Nat) :
    ((l.map (fun i => (i, m))).filter (fun d => d.1 = B)) =
      (l.filter (fun i => i = B)).map (fun i => (i, m)) := by
  induction l with
  | nil => rfl
  | cons a rest ih =>
    by_cases h : a = B
    · simp [List.filter_cons, h, ih]
    · simp [List.filter_cons, h, ih]

theorem keys_nodup_unique {κ α : Type} (l : List (κ × α))
    (hn : (l.map Prod.fst).Nodup) {p p' : κ × α}
    (hp : p ∈ l) (hp' : p' ∈ l) (hk : p.1 = p'.1) : p = p' := by
  induction l with
  | nil => cases hp
  | cons a rest ih =>
    simp only [List.map_cons, List.nodup_cons] at hn
    rcases List.mem_cons.mp hp with h1 | h1 <;>
      rcases List.mem_cons.mp hp' with h2 | h2
    · exact h1.trans h2.symm
    · exfalso
      have hmem : p'.1 ∈ rest.map Prod.fst := List.mem_map_of_mem Prod.fst h2
      rw [← hk, h1] at hmem
      exact hn.1 hmem
    · exfalso
      have hmem : p.1 ∈ rest.map Prod.fst := List.mem_map_of_mem Prod.fst h1
      rw [hk, h2] at hmem
      exact hn.1 hmem
    · exact ih hn.2 h1 h2

theorem mem_notif_base (st : StateInner) (src B : Nat) :
    B ∈ notif_base st src ↔
      ∃ p ∈ st.channels, src ∈ p.2.members.map Prod.fst ∧
        B ∈ p.2.members.map Prod.fst := by
  simp only [notif_base, List.mem_dedup, List.mem_flatMap, List.mem_filter,
    List.elem_eq_mem, decide_eq_true_eq]
  constructor
  · rintro ⟨p, ⟨hp, hsrc⟩, hB⟩
    exact ⟨p, hp, hsrc, hB⟩
  · rintro ⟨p, hp, hsrc, hB⟩
    exact ⟨p, ⟨hp, hsrc⟩, hB⟩

theorem change_member_operator_again (v : Bool) (p : String)
    (f : Nat → String) :
    ∀ (l l' : List (Nat × MemberModes)) (b : Bool),
      change_member_operator v p f l = some (l', b) →
      change_member_operator v p f l' = some (l', false) := by
  intro l
  induction l with
  | nil => intro l' b h; cases h
  | cons im rest ih =>
    intro l' b h
    obtain ⟨i, m⟩ := im
    by_cases hf : f i = p
    · simp only [change_member_operator, if_pos hf] at h
      have h' := Option.some.inj h
      have hl : l' = (i, { m with operator := v }) :: rest :=
        ((Prod.ext_iff.mp h').1).symm
      subst hl
      simp [change_member_operator, hf]
    · simp only [change_member_operator, if_neg hf,
        Option.map_eq_some'] at h
      obtain ⟨⟨l'', b''⟩, hrest, heq⟩ := h
      have hl : l' = (i, m) :: l'' := ((Prod.ext_iff.mp heq).1).symm
      subst hl
      have hrec := ih l'' b'' hrest
      simp [change_member_operator, hf, hrec]

theorem filter_idem {α : Type} (pr : α → Bool) (l : List α) :
    (l.filter pr).filter pr = l.filter pr := by
  induction l with
  | nil => rfl
  | cons a rest ih =>
    by_cases h : pr a = true <;> simp [List.filter_cons, h, ih]

theorem not_mem_filter_ne (l : List String) (p : String) :
    p ∉ l.filter (fun y => y ≠ p) := by
  simp [List.mem_filter]

theorem notif_pred_iff (st : StateInner) (src : Nat)
    (filt : Nat → Client → Bool) (i : Nat) :
    notif_pred st src filt i = true ↔
      src ≠ i ∧ ∃ c, st.clients.lookup i = some c ∧ filt i c = true := by
  unfold notif_pred
  cases h : st.clients.lookup i <;> simp [h]

theorem mem_noticed (st : StateInner) (src B : Nat) :
    (B ∈ (if src ∈ notif_base st src then notif_base st src
          else src :: notif_base st src)) ↔
      (B ∈ notif_base st src ∨ B = src) := by
  by_cases h : src ∈ notif_base st src
  · rw [if_pos h]
    constructor
    · exact Or.inl
    · rintro (hb | rfl)
      · exact hb
      · exact h
  · rw [if_neg h]
    constructor
    · intro hm
      rcases List.mem_cons.mp hm with h1 | h1
      · exact Or.inr h1
      · exact Or.inl h1
    · rintro (hb | rfl)
      · exact List.mem_cons_of_mem _ hb
      · exact List.mem_cons_self _ _

theorem nodup_noticed (st : StateInner) (src : Nat) :
    (if src ∈ notif_base st src then notif_base st src
     else src :: notif_base st src).Nodup := by
  by_cases h : src ∈ notif_base st src
  · rw [if_pos h]
    exact List.nodup_dedup _
  · rw [if_neg h]
    exact List.nodup_cons.mpr ⟨h, List.nodup_dedup _⟩

theorem mem_send_notification (st : StateInner) (src B : Nat) (msg : OutMsg)
    (filt : Nat → Client → Bool) :
    (∃ m, (B, m) ∈ send_notification st src msg filt) ↔
      ((B ∈ notif_base st src ∨ B = src) ∧ src ≠ B ∧
        ∃ cb, st.clients.lookup B = some cb ∧ filt B cb = true) := by
  unfold send_notification
  simp only [List.mem_map]
  constructor
  · rintro ⟨m, i, hi, heq⟩
    have hiB : i = B := (Prod.ext_iff.mp heq).1
    subst hiB
    have hm := List.mem_filter.mp hi
    exact ⟨(mem_noticed st src i).mp hm.1,
      ((notif_pred_iff st src filt i).mp hm.2)⟩
  · rintro ⟨hmem, hsrc, cb, hcb, hfilt⟩
    exact ⟨msg, B,
      List.mem_filter.mpr ⟨(mem_noticed st src B).mpr hmem,
        (notif_pred_iff st src filt B).mpr ⟨hsrc, cb, hcb, hfilt⟩⟩, rfl⟩

theorem send_notification_filter_eq (st : StateInner) (src B : Nat)
    (msg : OutMsg) (filt : Nat → Client → Bool)
    (hmem : B ∈ notif_base st src ∨ B = src)
    (hpred : notif_pred st src filt B = true) :
    (send_notification st src msg filt).filter (fun d => d.1 = B) =
      [(B, msg)] := by
  unfold send_notification
  rw [map_pair_filter]
  have hBt : B ∈ (if src ∈ notif_base st src then notif_base st src
      else src :: notif_base st src).filter (notif_pred st src filt) :=
    List.mem_filter.mpr ⟨(mem_noticed st src B).mpr hmem, hpred⟩
  rw [nodup_filter_eq_self _ B ((nodup_noticed st src).filter _) hBt]
  rfl

theorem lookup_update_client_isSome (l : List (Nat × Client)) (id B : Nat)
    (c : Client) :
    ((update_client l id c).lookup B).isSome = (l.lookup B).isSome := by
  induction l with
  | nil => rfl
  | cons p rest ih =>
    simp only [update_client, List.map_cons] at ih ⊢
    by_cases hp : p.1 = id
    · rw [if_pos hp]
      cases hB : B == id
      · have h2 : (B == p.1) = false := by rw [hp]; exact hB
        simpa [List.lookup, hB, h2] using ih
      · have h2 : (B == p.1) = true := by rw [hp]; exact hB
        simp [List.lookup, hB, h2]
    · rw [if_neg hp]
      cases hB : B == p.1
      · simpa [List.lookup, hB] using ih
      · simp [List.lookup, hB]

theorem remove_client_spec (st1 : StateInner) (q : Nat) (c : Client)
    (e : String) (reason : Option String) (B : Nat) (cb : Client)
    (hB1 : st1.clients.lookup B = some cb)
    (hne : B ≠ q)
    (hshare : ∃ p ∈ st1.channels, q ∈ p.2.members.map Prod.fst ∧
      B ∈ p.2.members.map Prod.fst)
    (hnames : (st1.channels.map Prod.fst).Nodup) :
    ((remove_client st1 q c e reason).2.1.filter (fun d => d.1 = B)) =
      [(B, { origin := c.full_name, command := "QUIT",
             params := reason.toList })] ∧
    (remove_client st1 q c e reason).2.2 =
      [{ origin := "", command := "ERROR", params := [e] }] ∧
    (∀ p ∈ (remove_client st1 q c e reason).1.channels,
      q ∉ p.2.members.map Prod.fst) ∧
    (∀ p ∈ st1.channels, (∀ m ∈ p.2.members, m.1 = q) →
      p.1 ∉ (remove_client st1 q c e reason).1.channels.map Prod.fst) ∧
    (remove_client st1 q c e reason).1.nicks.lookup (ascii_fold c.nick) =
      Option.none := by
  refine ⟨?_, rfl, ?_, ?_, ?_⟩
  · apply send_notification_filter_eq
    · exact Or.inl ((mem_notif_base st1 q B).mpr hshare)
    · exact (notif_pred_iff st1 q _ B).mpr
        ⟨fun h => hne h.symm, cb, hB1, rfl⟩
  · intro p hp
    have hp2 := List.mem_filter.mp hp
    rcases List.mem_map.mp hp2.1 with ⟨orig, horig, heq⟩
    subst heq
    intro hq
    rcases List.mem_map.mp hq with ⟨m, hm, hmq⟩
    have := List.mem_filter.mp hm
    rw [hmq] at this
    simp at this
  · intro p hp hall hcontra
    rcases List.mem_map.mp hcontra with ⟨p', hp', hk⟩
    have hp2 := List.mem_filter.mp hp'
    rcases List.mem_map.mp hp2.1 with ⟨orig, horig, heq⟩
    have horigp : orig = p := by
      apply keys_nodup_unique st1.channels hnames horig hp
      have : p'.1 = orig.1 := by rw [← heq]
      rw [← this, hk]
    subst horigp
    have hempty : orig.2.members.filter (fun m => m.1 ≠ q) = [] := by
      apply List.filter_eq_nil_iff.mpr
      intro m hm
      simp [hall m hm]
    have hne2 := hp2.2
    rw [← heq] at hne2
    simp [hempty] at hne2
    rcases hne2 with ⟨x, ⟨x1, hx⟩, hxq⟩
    exact hxq (hall (x, x1) hx)
  · exact lookup_filter_self st1.nicks (ascii_fold c.nick)

theorem find_nick_unregistered (clients : List (Nat × Client))
    (nicks : List (String × Nat)) (nick : String) (i : Nat) (c : Client)
    (hn : nicks.lookup (ascii_fold nick) = some i)
    (hc : clients.lookup i = some c)
    (hreg : c.is_registered = false) :
    find_nick clients nicks nick = Option.none := by
  simp [find_nick, hn, hc, hreg]

/-! ## Claims -/

/-- Claim C3 (the parser is missing the `s` arm): the channel mode parser
decodes `a i m n q p t` into the corresponding simple-boolean records, but
on `s` — a recognized channel mode everywhere else in the code
(`ChannelModeChange::Secret`, `symbol()`, `Channel::apply_mode_change`,
`Channel::secret`) — it produces `Err(UnknownMode('s'))` instead of
`Secret(true)`. -/
theorem c3_secret_letter_unknown :
    channelQueryRun "+s" [] = [.error (.UnknownMode 's')] ∧
    channelQueryRun "+s" [] ≠ [.ok (.Secret true)] ∧
    channelQueryRun "+aimnqpt" [] =
      [.ok (.Anonymous true), .ok (.InviteOnly true), .ok (.Moderated true),
       .ok (.NoPrivMsgFromOutside true), .ok (.Quiet true),
       .ok (.Private true), .ok (.TopicRestricted true)] ∧
    channelQueryRun "-s" [] = [.error (.UnknownMode 's')] := by
  refine ⟨by decide, by decide, by decide, by decide⟩

/-- Claim C2 (counterexample): applying `Key(true, k)` to a fresh channel
keys it and reports a change, but the second application does not report
`applied = false` — it returns `ERR_KEYSET`. -/
theorem c2_key_twice_counterexample :
    (apply_mode_change Channel.empty (.Key true "sesame") (fun _ => "")).2 =
      .ok true ∧
    (apply_mode_change (apply_mode_change Channel.empty
        (.Key true "sesame") (fun _ => "")).1
      (.Key true "sesame") (fun _ => "")).2 = .error .ERR_KEYSET ∧
    (apply_mode_change (apply_mode_change Channel.empty
        (.Key true "sesame") (fun _ => "")).1
      (.Key true "sesame") (fun _ => "")).2 ≠ .ok false := by
  refine ⟨by decide, by decide, by decide⟩

/-- Claim C2 (amended): applying the same channel mode change record twice
leaves the channel in the same state as applying it once, and the second
application either reports no change (`Ok(false)`) or returns an error
without touching the state (`ERR_KEYSET` for `Key(true, _)`,
`ERR_USERNOTINCHANNEL` for `ChangeOperator`/`ChangeVoice` on an absent
nick). -/
theorem c2_apply_mode_change_idempotent (ch : Channel)
    (c : ChannelModeChange) (f : Nat → String) :
    (apply_mode_change (apply_mode_change ch c f).1 c f).1 =
        (apply_mode_change ch c f).1 ∧
    ((apply_mode_change (apply_mode_change ch c f).1 c f).2 = .ok false ∨
      ∃ e, (apply_mode_change (apply_mode_change ch c f).1 c f).2 =
        .error e) := by
  cases c with
  | Anonymous v => constructor <;> simp [apply_mode_change]
  | InviteOnly v => constructor <;> simp [apply_mode_change]
  | Moderated v => constructor <;> simp [apply_mode_change]
  | NoPrivMsgFromOutside v => constructor <;> simp [apply_mode_change]
  | Quiet v => constructor <;> simp [apply_mode_change]
  | Private v => constructor <;> simp [apply_mode_change]
  | Secret v => constructor <;> simp [apply_mode_change]
  | TopicRestricted v => constructor <;> simp [apply_mode_change]
  | Key v k =>
    cases v with
    | false =>
      cases hk : ch.key with
      | none => simp [apply_mode_change, hk]
      | some ck =>
        by_cases hck : k = ck
        · simp [apply_mode_change, hk, hck]
        · simp [apply_mode_change, hk, hck]
    | true =>
      cases hk : ch.key with
      | none => simp [apply_mode_change, hk]
      | some ck => simp [apply_mode_change, hk]
  | UserLimit lim =>
    cases lim with
    | none => constructor <;> simp [apply_mode_change]
    | some s =>
      cases hp : parse_usize s with
      | none => simp [apply_mode_change, hp]
      | some v => simp [apply_mode_change, hp]
  | GetBans => constructor <;> simp [apply_mode_change]
  | GetExceptions => constructor <;> simp [apply_mode_change]
  | GetInvitations => constructor <;> simp [apply_mode_change]
  | ChangeBan v prm =>
    cases v with
    | true =>
      by_cases hm : prm ∈ ch.ban_mask
      · simp [apply_mode_change, hash_set_insert, hm]
      · simp [apply_mode_change, hash_set_insert, hm]
    | false =>
      constructor
      · simp [apply_mode_change, hash_set_remove, filter_idem]
      · simp [apply_mode_change, hash_set_remove, not_mem_filter_ne]
  | ChangeException v prm =>
    cases v with
    | true =>
      by_cases hm : prm ∈ ch.exception_mask
      · simp [apply_mode_change, hash_set_insert, hm]
      · simp [apply_mode_change, hash_set_insert, hm]
    | false =>
      constructor
      · simp [apply_mode_change, hash_set_remove, filter_idem]
      · simp [apply_mode_change, hash_set_remove, not_mem_filter_ne]
  | ChangeInvitation v prm =>
    cases v with
    | true =>
      by_cases hm : prm ∈ ch.invitation_mask
      · simp [apply_mode_change, hash_set_insert, hm]
      · simp [apply_mode_change, hash_set_insert, hm]
    | false =>
      constructor
      · simp [apply_mode_change, hash_set_remove, filter_idem]
      · simp [apply_mode_change, hash_set_remove, not_mem_filter_ne]
  | ChangeOperator v prm =>
    cases h : change_member_operator v prm f ch.members with
    | none => simp [apply_mode_change, h]
    | some r =>
      obtain ⟨l', b⟩ := r
      have h2 := change_member_operator_again v prm f ch.members l' b h
      simp [apply_mode_change, h, h2]
  | ChangeVoice v prm =>
    cases h : change_member_operator v prm f ch.members with
    | none => simp [apply_mode_change, h]
    | some r =>
      obtain ⟨l', b⟩ := r
      have h2 := change_member_operator_again v prm f ch.members l' b h
      simp [apply_mode_change, h, h2]

/-- Claim C2 (witness): the amended idempotence at a concrete input. -/
theorem c2_apply_mode_change_idempotent_witness :
    (apply_mode_change (apply_mode_change Channel.empty
        (.Moderated true) (fun _ => "")).1 (.Moderated true) (fun _ => "")).1 =
      (apply_mode_change Channel.empty (.Moderated true) (fun _ => "")).1 :=
  (c2_apply_mode_change_idempotent Channel.empty (.Moderated true)
    (fun _ => "")).1

/-- Claim C8 (counterexample): `l` with positive sign and no remaining
parameter is not rejected — it parses to the `UserLimit(None)` change record
(which unsets the limit); and a malformed user-limit parameter is not a
distinct error record: the parser passes it through and
`apply_mode_change` silently ignores it (`Ok(false)`, state unchanged). -/
theorem c8_user_limit_counterexample :
    channelQueryRun "+l" [] = [.ok (.UserLimit Option.none)] ∧
    channelQueryRun "+l" [] ≠ [.error .MissingModeParam] ∧
    channelQueryRun "+l" [] ≠ [.error .BadModeParam] ∧
    channelQueryRun "+l" ["oops"] = [.ok (.UserLimit (some "oops"))] ∧
    apply_mode_change Channel.empty (.UserLimit (some "oops")) (fun _ => "") =
      (Channel.empty, .ok false) := by
  refine ⟨by decide, by decide, by decide, by decide, by decide⟩

/-- Claim C8 (amended): in the channel mode grammar the letter `l` with no
remaining parameter yields the `UserLimit(None)` change record regardless of
the latched sign (never an error), and a user-limit parameter that does not
parse as a number is silently ignored by `apply_mode_change`: the channel is
unchanged and no change is reported, but no error record is produced
either. -/
theorem c8_user_limit_behaviour :
    (∀ v : Bool,
      channelModeDecode v 'l' [] = (.ok (.UserLimit Option.none), [])) ∧
    ∀ (ch : Channel) (s : String) (f : Nat → String),
      parse_usize s = Option.none →
      apply_mode_change ch (.UserLimit (some s)) f = (ch, .ok false) := by
  constructor
  · intro v
    cases v <;> decide
  · intro ch s f hp
    simp [apply_mode_change, hp]

/-- Claim C8 (witness): the amended behaviour at a concrete input. -/
theorem c8_user_limit_behaviour_witness :
    parse_usize "12ab" = Option.none ∧
    apply_mode_change Channel.empty (.UserLimit (some "12ab")) (fun _ => "") =
      (Channel.empty, .ok false) :=
  ⟨by decide,
   c8_user_limit_behaviour.2 Channel.empty "12ab" (fun _ => "") (by decide)⟩

/-- Claim C4 (counterexample): `rehash` does not replace the full admin
contact triple nor all length limits — `org_mail` and `nicklen` keep their
old values even though the new configuration differs in both. -/
theorem c4_rehash_counterexample :
    (st3.rehash cfg_new 1).org_mail = "admin@elli.dri" ∧
    (st3.rehash cfg_new 1).org_mail ≠ cfg_new.org_mail ∧
    (st3.rehash cfg_new 1).nicklen = 9 ∧
    (st3.rehash cfg_new 1).nicklen ≠ cfg_new.nicklen := by
  refine ⟨rfl, by decide, rfl, by decide⟩

/-- Claim C4 (amended): `rehash(config, auth_provider)` replaces the server
domain, `org_name`, `org_location`, MOTD text, global password, default
channel mode string, operator list, the away/channel/kick/name/topic/user
length limits, the login timeout and the auth provider, while leaving the
clients, nicks and channels maps (and `created_at`) unchanged — so no client
is evicted — but it does not replace `org_mail` or the nickname length
limit. -/
theorem c4_rehash_frame (st : StateInner) (config : Config) (ap : Nat) :
    (st.rehash config ap).clients = st.clients ∧
    (st.rehash config ap).nicks = st.nicks ∧
    (st.rehash config ap).channels = st.channels ∧
    (st.rehash config ap).created_at = st.created_at ∧
    (st.rehash config ap).org_mail = st.org_mail ∧
    (st.rehash config ap).nicklen = st.nicklen ∧
    (st.rehash config ap).domain = config.domain ∧
    (st.rehash config ap).org_name = config.org_name ∧
    (st.rehash config ap).org_location = config.org_location ∧
    (st.rehash config ap).motd =
      (if config.motd_file = "" then Option.none else some config.motd_file) ∧
    (st.rehash config ap).password = config.password ∧
    (st.rehash config ap).default_chan_mode = config.default_chan_mode ∧
    (st.rehash config ap).opers = config.opers ∧
    (st.rehash config ap).awaylen = config.awaylen ∧
    (st.rehash config ap).channellen = config.channellen ∧
    (st.rehash config ap).kicklen = config.kicklen ∧
    (st.rehash config ap).namelen = config.namelen ∧
    (st.rehash config ap).topiclen = config.topiclen ∧
    (st.rehash config ap).userlen = config.userlen ∧
    (st.rehash config ap).login_timeout = config.login_timeout ∧
    (st.rehash config ap).auth_provider = ap :=
  ⟨rfl, rfl, rfl, rfl, rfl, rfl, rfl, rfl, rfl, rfl, rfl, rfl, rfl, rfl,
   rfl, rfl, rfl, rfl, rfl, rfl, rfl⟩

/-- Claim C4 (witness): the frame property at a concrete state and
configuration. -/
theorem c4_rehash_frame_witness :
    (st3.rehash cfg_new 1).clients = st3.clients ∧
    (st3.rehash cfg_new 1).nicklen = st3.nicklen :=
  ⟨(c4_rehash_frame st3 cfg_new 1).1,
   (c4_rehash_frame st3 cfg_new 1).2.2.2.2.2.1⟩

/-- Claim C7: `CAP REQ` is all-or-nothing — any unsupported requested token
makes `are_supported` false, in which case the server replies `NAK` and the
state (in particular the client's capability set) is completely unchanged;
otherwise the server replies `ACK` and the requested tokens are applied to
the client's capability set. -/
theorem c7_cap_req_all_or_nothing (st : StateInner) (id : Nat) (c : Client)
    (s : String) (h : st.clients.lookup id = some c) :
    ((∃ t ∈ cap_tokens s, supported_tokens.contains t = false) →
      are_supported s = false) ∧
    (are_supported s = false →
      cmd_cap_req st id s =
        { state := st,
          replies := [{ origin := "", command := "CAP",
                        params := ["NAK", s] }],
          deliveries := [], ok := false }) ∧
    (are_supported s = true →
      cmd_cap_req st id s =
        { state :=
            { st with
              clients := update_client st.clients id
                ({ c with caps := update_capabilities c.caps s }) },
          replies := [{ origin := "", command := "CAP",
                        params := ["ACK", s] }],
          deliveries := [], ok := true }) := by
  refine ⟨?_, ?_, ?_⟩
  · rintro ⟨t, ht, hts⟩
    cases hval : are_supported s with
    | false => rfl
    | true =>
      exfalso
      have hall := List.all_eq_true.mp hval t ht
      rw [hts] at hall
      cases hall
  · intro hsup
    unfold cmd_cap_req
    rw [h]
    simp [hsup]
  · intro hsup
    unfold cmd_cap_req
    rw [h]
    simp [hsup]

/-- Claim C7 (witness): a `CAP REQ` with an unsupported token at a concrete
state replies `NAK` and leaves the state unchanged. -/
theorem c7_cap_req_all_or_nothing_witness :
    are_supported "sasl foobar" = false ∧
    cmd_cap_req st3 0 "sasl foobar" =
      { state := st3,
        replies := [{ origin := "", command := "CAP",
                      params := ["NAK", "sasl foobar"] }],
        deliveries := [], ok := false } :=
  ⟨by decide,
   (c7_cap_req_all_or_nothing st3 0 (sample_client "ser") "sasl foobar"
     (by decide)).2.1 (by decide)⟩

/-- Claim C10: a nickname bound in `nicks` to an existing but unregistered
client is treated by `find_nick` exactly like a nonexistent nickname, and on
the PRIVMSG/NOTICE/TAGMSG query path the sender gets `ERR_NOSUCHNICK` and no
message is delivered. -/
theorem c10_unregistered_nick_like_missing :
    (∀ (clients : List (Nat × Client)) (nicks : List (String × Nat))
        (nick : String) (i : Nat) (c : Client),
      nicks.lookup (ascii_fold nick) = some i →
      clients.lookup i = some c →
      c.is_registered = false →
      find_nick clients nicks nick = Option.none) ∧
    ∀ (st : StateInner) (id : Nat) (sc : Client) (cmd : Command)
      (target : String) (content : Option String) (i : Nat) (c : Client),
      st.clients.lookup id = some sc →
      content ≠ some "" →
      is_valid_channel_name target st.channellen = false →
      st.nicks.lookup (ascii_fold target) = some i →
      st.clients.lookup i = some c →
      c.is_registered = false →
      send_query_or_channel_msg st id cmd target content =
        { state := st, replies := [err_NOSUCHNICK target],
          deliveries := [], ok := false } := by
  constructor
  · exact find_nick_unregistered
  · intro st id sc cmd target content i c hsc hcontent hvalid hn hc hreg
    have hfn := find_nick_unregistered st.clients st.nicks target i c hn hc hreg
    unfold send_query_or_channel_msg
    rw [hsc]
    simp [hcontent, hvalid, hfn]

/-- Claim C10 (witness): sending a PRIVMSG to the nick of a connected but
unregistered client yields `ERR_NOSUCHNICK` and no delivery. -/
theorem c10_unregistered_nick_like_missing_witness :
    (unreg_client "eve").is_registered = false ∧
    send_query_or_channel_msg st_unreg 0 .PrivMsg "eve" (some "hi") =
      { state := st_unreg, replies := [err_NOSUCHNICK "eve"],
        deliveries := [], ok := false } :=
  ⟨by decide,
   c10_unregistered_nick_like_missing.2 st_unreg 0 (sample_client "ser")
     .PrivMsg "eve" (some "hi") 1 (unreg_client "eve")
     (by decide) (by decide) (by decide) (by decide) (by decide) (by decide)⟩

/-- Claim C5 (counterexample): after a valid SETNAME from client 0, client 1
— which shares `#room` and `#lobby` with client 0 but has not negotiated the
`setname` capability — still receives the SETNAME notification: the source
passes an always-true filter to `send_notification`, so no recipient is
skipped for lacking the capability. -/
theorem c5_setname_no_cap_filter_counterexample :
    (1, ({ origin := "ser!~ser@127.0.0.1", command := "SETNAME",
           params := ["newname"] } : OutMsg)) ∈
        (cmd_setname st3 0 "newname").deliveries ∧
    (st3.clients.lookup 1).map (fun c => c.caps.setname) = some false := by
  refine ⟨by decide, by decide⟩

/-- Claim C5 (amended): a valid SETNAME notification is delivered to exactly
the clients that share at least one channel with the issuer (other than the
issuer itself), with no capability condition whatsoever — recipients lacking
the `setname` capability are not skipped. -/
theorem c5_setname_broadcast (st : StateInner) (id : Nat) (c : Client)
    (real : String) (B : Nat) (cb : Client)
    (hc : st.clients.lookup id = some c)
    (hval : ¬(real = "" ∨ st.namelen < real.length))
    (hB : st.clients.lookup B = some cb) :
    (cmd_setname st id real).ok = true ∧
    ((∃ m, (B, m) ∈ (cmd_setname st id real).deliveries) ↔
      (B ≠ id ∧ ∃ p ∈ st.channels, id ∈ p.2.members.map Prod.fst ∧
        B ∈ p.2.members.map Prod.fst)) := by
  unfold cmd_setname
  rw [if_neg hval, hc]
  refine ⟨rfl, ?_⟩
  rw [mem_send_notification]
  constructor
  · rintro ⟨hmem, hsrc, -⟩
    rcases hmem with hbase | rfl
    · exact ⟨fun hBid => hsrc hBid.symm,
        (mem_notif_base _ id B).mp hbase⟩
    · exact absurd rfl hsrc
  · rintro ⟨hne, p, hp, hid, hBp⟩
    refine ⟨Or.inl ((mem_notif_base _ id B).mpr ⟨p, hp, hid, hBp⟩),
      fun hidB => hne hidB.symm, ?_⟩
    have hsome : ((update_client st.clients id
        { c with real := real }).lookup B).isSome = true := by
      rw [lookup_update_client_isSome, hB]
      rfl
    rcases Option.isSome_iff_exists.mp hsome with ⟨cb2, hcb2⟩
    exact ⟨cb2, hcb2, rfl⟩

/-- Claim C1: when a client `q` is removed through `peer_quit` (the QUIT
handler performs the identical cleanup through `remove_client`, per the
comment on src/state/mod.rs:299-307), every other client `B` that shares at
least one channel with `q` receives exactly one QUIT notification (the
recipient set is the deduplicated union of the member sets of the channels
containing `q`, excluding `q`); an ERROR line carrying the reason is sent to
`q`'s own sink; `q` is removed from the member map of every channel; every
channel whose member set becomes empty is deleted from the channels map; and
`q`'s case-folded nick is removed from the nicks index. -/
theorem c1_quit_cascade (st : StateInner) (q : Nat) (c : Client)
    (err : Option String) (B : Nat) (cb : Client)
    (hq : st.clients.lookup q = some c)
    (hB : st.clients.lookup B = some cb)
    (hne : B ≠ q)
    (hshare : ∃ p ∈ st.channels, q ∈ p.2.members.map Prod.fst ∧
      B ∈ p.2.members.map Prod.fst)
    (hnames : (st.channels.map Prod.fst).Nodup) :
    ((peer_quit st q err).2.1.filter (fun d => d.1 = B)) =
      [(B, { origin := c.full_name, command := "QUIT",
             params := err.toList })] ∧
    (peer_quit st q err).2.2 =
      [{ origin := "", command := "ERROR",
         params := [err.getD CLOSING_LINK] }] ∧
    (∀ p ∈ (peer_quit st q err).1.channels, q ∉ p.2.members.map Prod.fst) ∧
    (∀ p ∈ st.channels, (∀ m ∈ p.2.members, m.1 = q) →
      p.1 ∉ (peer_quit st q err).1.channels.map Prod.fst) ∧
    (peer_quit st q err).1.nicks.lookup (ascii_fold c.nick) =
      Option.none := by
  have hB1 : (({ st with clients := st.clients.filter (fun p => p.1 ≠ q) })
      : StateInner).clients.lookup B = some cb := by
    show (st.clients.filter (fun p => p.1 ≠ q)).lookup B = some cb
    rw [lookup_filter_ne st.clients B q hne]
    exact hB
  cases err with
  | none =>
    have h := remove_client_spec
      { st with clients := st.clients.filter (fun p => p.1 ≠ q) }
      q c CLOSING_LINK Option.none B cb hB1 hne hshare hnames
    unfold peer_quit
    rw [hq]
    exact h
  | some e =>
    have h := remove_client_spec
      { st with clients := st.clients.filter (fun p => p.1 ≠ q) }
      q c e (some e) B cb hB1 hne hshare hnames
    unfold peer_quit
    rw [hq]
    exact h

/-- Claim C1 (witness): the QUIT cascade at the spec's concrete scenario —
ser, bob and cat share `#room` and `#lobby`; when ser quits, bob receives
exactly one QUIT line, ser's sink gets the ERROR line, and ser's nick is
unbound. -/
theorem c1_quit_cascade_witness :
    ((peer_quit st3 0 Option.none).2.1.filter (fun d => d.1 = 1)) =
      [(1, { origin := "ser!~ser@127.0.0.1", command := "QUIT",
             params := [] })] ∧
    (peer_quit st3 0 Option.none).2.2 =
      [{ origin := "", command := "ERROR", params := ["Closing link"] }] ∧
    (peer_quit st3 0 Option.none).1.nicks.lookup "ser" = Option.none := by
  have h := c1_quit_cascade st3 0 (sample_client "ser") Option.none 1
    (sample_client "bob") (by decide) (by decide) (by decide)
    ⟨("#room", sample_channel [0, 1, 2]), by decide, by decide, by decide⟩
    (by decide)
  exact ⟨h.1, h.2.1, h.2.2.2.2⟩

/-- Claim C5 (witness): the amended broadcast characterisation at a concrete
state — client 1 shares a channel with the issuer and receives the
notification. -/
theorem c5_setname_broadcast_witness :
    (cmd_setname st3 0 "newname").ok = true ∧
    ∃ m, (1, m) ∈ (cmd_setname st3 0 "newname").deliveries := by
  have h := c5_setname_broadcast st3 0 (sample_client "ser") "newname" 1
    (sample_client "bob") (by decide) (by decide) (by decide)
  refine ⟨h.1, h.2.mpr ⟨by decide, ⟨("#room", sample_channel [0, 1, 2]),
    by decide, by decide, by decide⟩⟩⟩

/-- Claim C6: for every dispatched command — one that passes every
validation gate of `handle_message` — whose issuer still exists after the
handler ran, `handle_message` returns the command's fixed point cost from
`points_of` when the handler succeeded and double that cost when it failed;
in particular admin costs 1, join 4, list 6, privmsg 4 and authenticate 6
points. -/
theorem c6_points (st : StateInner) (id : Nat) (msg : Msg) (c c1 : Client)
    (cmd : Command)
    (h1 : st.clients.lookup id = some c)
    (h2 : msg.tags.length ≤ 4094)
    (h3 : msg.command = .ok cmd)
    (h4 : c.caps.is_capable_of cmd = true)
    (h5 : has_enough_params cmd msg.num_params = true)
    (h6 : can_issue_command c cmd (msg.getP 0) = true)
    (h7 : (handle_message_inner st id msg).1.clients.lookup id = some c1) :
    (handle_message st id msg).result =
      .ok (if (handle_message_inner st id msg).2 then points_of cmd
           else points_of cmd * 2) ∧
    points_of .Admin = 1 ∧ points_of .Join = 4 ∧ points_of .List = 6 ∧
    points_of .PrivMsg = 4 ∧ points_of .Authenticate = 6 := by
  refine ⟨?_, rfl, rfl, rfl, rfl, rfl⟩
  have h2' : ¬ (4094 < msg.tags.length) := by omega
  unfold handle_message
  rw [h1]
  dsimp only
  rw [if_neg h2', h3]
  dsimp only
  simp only [h4, h5, h6, Bool.not_true, Bool.false_eq_true, if_false]
  simp only [h7]
  cases hin : (handle_message_inner st id msg).2 <;> simp [hin]

/-- Claim C6 (witness): a successful `PONG` from a registered client costs
exactly `points_of Pong = 1`. -/
theorem c6_points_witness :
    (handle_message st3 0 msg_pong).result = .ok 1 := by
  have h := c6_points st3 0 msg_pong (sample_client "ser")
    (sample_client "ser") .Pong (by decide) (by decide) (by decide)
    (by decide) (by decide) (by decide) (by decide)
  have hin : (handle_message_inner st3 0 msg_pong).2 = true := by decide
  rw [hin] at h
  exact h.1

/-- Claim C9: when a command handler removes the issuing client during
`handle_message` (as the QUIT handler does), `handle_message` returns the
client-gone result `Err(())` instead of a point count, the state is exactly
the handler's output (no registration-gate advancement), and no welcome
suite is streamed. -/
theorem c9_client_gone (st : StateInner) (id : Nat) (msg : Msg) (c : Client)
    (cmd : Command)
    (h1 : st.clients.lookup id = some c)
    (h2 : msg.tags.length ≤ 4094)
    (h3 : msg.command = .ok cmd)
    (h4 : c.caps.is_capable_of cmd = true)
    (h5 : has_enough_params cmd msg.num_params = true)
    (h6 : can_issue_command c cmd (msg.getP 0) = true)
    (h7 : (handle_message_inner st id msg).1.clients.lookup id =
      Option.none) :
    (handle_message st id msg).result = .error () ∧
    (handle_message st id msg).state = (handle_message_inner st id msg).1 ∧
    (handle_message st id msg).welcome_sent = false := by
  have h2' : ¬ (4094 < msg.tags.length) := by omega
  unfold handle_message
  rw [h1]
  dsimp only
  rw [if_neg h2', h3]
  dsimp only
  simp only [h4, h5, h6, Bool.not_true, Bool.false_eq_true, if_false]
  simp only [h7]
  exact ⟨trivial, trivial, trivial⟩

/-- Claim C9 (witness): a registered client issuing `QUIT` is removed by the
handler, and `handle_message` returns the client-gone result with no welcome
delivery. -/
theorem c9_client_gone_witness :
    (handle_message st3 0 msg_quit).result = .error () ∧
    (handle_message st3 0 msg_quit).welcome_sent = false := by
  have h := c9_client_gone st3 0 msg_quit (sample_client "ser") .Quit
    (by decide) (by decide) (by decide) (by decide) (by decide) (by decide)
    (by decide)
  exact ⟨h.1, h.2.2⟩

end Ellidri
